import Mathlib

/-!
# Verification of the pakto conversion pipeline

A shallow embedding of the core of the pakto package converter
(`src/analyzer.rs`, `src/bundler.rs`, `src/transformer.rs`,
`src/errors.rs`, `src/config.rs`), together with theorems settling the
frozen specification claims.

Strings are modelled by Lean `String` (a wrapper around `List Char`);
Rust byte lengths (`str::len`) are modelled by `String.utf8ByteSize`.
The regex patterns the source builds with the `regex` crate are fixed
literal patterns; each is embedded as an explicit character-level
matcher with the leftmost, non-overlapping iteration order of
`captures_iter`.  External libraries (the SWC parser, the `regex`
compiler on user-supplied patterns) are modelled as oracle parameters.
-/

set_option maxRecDepth 16384

namespace Pakto

/-- Issue severity, from `errors.rs` (`IssueLevel`). -/
inductive IssueLevel where
  | error
  | warning
  | info
deriving DecidableEq, Repr

/-- A location in source code, from `errors.rs` (`CodeLocation`). -/
structure CodeLocation where
  file : String
  line : Option Nat
  column : Option Nat
deriving DecidableEq, Repr

/-- `CodeLocation::new` sets only the file. -/
def CodeLocation.new (file : String) : CodeLocation :=
  { file := file, line := none, column := none }

/-- A compatibility issue, from `errors.rs` (`CompatibilityIssue`). -/
structure CompatibilityIssue where
  level : IssueLevel
  message : String
  location : Option CodeLocation
  suggestion : Option String
  api : Option String
deriving DecidableEq, Repr

/-- The error variants of `PaktoError` (`errors.rs`) reachable from the
bundling code embedded here.  `regexError` stands for the error the
source propagates with `?` when the `regex` crate rejects a
user-supplied exclude pattern. -/
inductive PaktoError where
  | bundleTooLarge (size : Nat) (max : Nat)
  | regexError (pattern : String)
deriving DecidableEq, Repr

/-- Bundling strategy, from `cli.rs` (`BundleStrategy`). -/
inductive BundleStrategy where
  | inline
  | selective
  | external
  | hybrid
deriving DecidableEq, Repr

/-- Bundle section of the configuration, from `config.rs` (`BundleConfig`). -/
structure BundleConfig where
  strategy : BundleStrategy
  max_size : Nat
  exclude_dependencies : List String
  force_inline : List String
deriving DecidableEq, Repr

/-- `impl Default for BundleConfig` in `config.rs`. -/
def BundleConfig.default : BundleConfig :=
  { strategy := .inline
    max_size := 5 * 1024 * 1024
    exclude_dependencies := ["fsevents", "node-gyp"]
    force_inline := [] }

/-- The slice of `Config` consumed by the analyzer and the bundler. -/
structure Config where
  bundle : BundleConfig
deriving DecidableEq, Repr

/-- `Config::default`, restricted to the fields used here. -/
def Config.default : Config :=
  { bundle := BundleConfig.default }

/-! ## Character-level helpers for the embedded regex matchers -/

/-- Models the regex class `\s` (on the ASCII range, which covers every
pattern and input the source manipulates). -/
def isWsChar (c : Char) : Bool :=
  c = ' ' || c = '\t' || c = '\n' || c = '\r' || c = '\x0b' || c = '\x0c'

/-- The three quote characters of the class `['"`]` used by the
require/import patterns. -/
def isQuoteChar (c : Char) : Bool :=
  c = '\'' || c = '"' || c = '`'

/-- Models the regex class `\w` (ASCII word character). -/
def isWordChar (c : Char) : Bool :=
  c.isAlphanum || c = '_'

/-- Strip a literal prefix from a character list. -/
def stripPrefixL : List Char → List Char → Option (List Char)
  | [], cs => some cs
  | _ :: _, [] => none
  | p :: ps, c :: cs => if p = c then stripPrefixL ps cs else none

/-- Consume `\s*` (greedy). -/
def dropWs (cs : List Char) : List Char :=
  cs.dropWhile (fun c => isWsChar c)

/-- Consume `\s+` (greedy, at least one character). -/
def dropWs1 : List Char → Option (List Char)
  | [] => none
  | c :: cs => if isWsChar c then some (dropWs cs) else none

/-- Consume `['"`]([^'"`]+)['"`]`: an opening quote, a non-empty maximal
run of non-quote characters (the capture), and a closing quote (any of
the three quote characters, as in the source's character class). -/
def matchQuoted : List Char → Option (String × List Char)
  | [] => none
  | c :: cs =>
    if isQuoteChar c then
      let cap := cs.takeWhile (fun d => !isQuoteChar d)
      let rest := cs.dropWhile (fun d => !isQuoteChar d)
      match rest with
      | [] => none
      | _ :: rest' => if cap.isEmpty then none else some (String.mk cap, rest')
    else none

/-- Try to match `require\s*\(\s*['"`]([^'"`]+)['"`]\s*\)` at the head of
the list; on success return the capture and the remainder after the
match. -/
def matchRequireAt (cs : List Char) : Option (String × List Char) := do
  let r1 ← stripPrefixL "require".data cs
  let r2 := dropWs r1
  let r3 ← stripPrefixL "(".data r2
  let r4 := dropWs r3
  let (cap, r5) ← matchQuoted r4
  let r6 := dropWs r5
  let r7 ← stripPrefixL ")".data r6
  pure (cap, r7)

/-- Non-overlapping leftmost iteration of a positional matcher, as
`captures_iter` does; `fuel` bounds the scan (the input length
suffices). -/
def scanMatches (m : List Char → Option (String × List Char)) :
    Nat → List Char → List String
  | 0, _ => []
  | _ + 1, [] => []
  | fuel + 1, c :: rest =>
    match m (c :: rest) with
    | some (cap, rest') => cap :: scanMatches m fuel rest'
    | none => scanMatches m fuel rest

/-- All captures of the require pattern in a code string
(`require_regex.captures_iter` in `bundler.rs` and `analyzer.rs`). -/
def findRequires (code : String) : List String :=
  scanMatches matchRequireAt code.data.length code.data

/-- Try to match `(?:import|from)\s+['"`]([^'"`]+)['"`]` at the head of
the list (`import_regex` of `bundler.rs`). -/
def matchImportAt (cs : List Char) : Option (String × List Char) :=
  let tail (r : List Char) : Option (String × List Char) := do
    let r' ← dropWs1 r
    matchQuoted r'
  match stripPrefixL "import".data cs with
  | some r =>
    match tail r with
    | some out => some out
    | none =>
      match stripPrefixL "from".data cs with
      | some r' => tail r'
      | none => none
  | none =>
    match stripPrefixL "from".data cs with
    | some r => tail r
    | none => none

/-- All captures of the bundler's import pattern. -/
def findImports (code : String) : List String :=
  scanMatches matchImportAt code.data.length code.data

/-! ## Dependency-name sanitization (`bundler.rs`) -/

/-- The first `replace` of `dependency_to_variable_name`: `/ - . @`
become `_`. -/
def replSanChar (c : Char) : Char :=
  if c = '/' || c = '-' || c = '.' || c = '@' then '_' else c

/-- `dependency_to_variable_name`, parameterized by the alphanumeric
predicate (`char::is_alphanumeric` in the source is the Unicode
predicate; every lemma below holds for an arbitrary predicate). -/
def sanitizeWith (alnum : Char → Bool) (s : String) : String :=
  String.mk ((s.data.map replSanChar).filter (fun c => alnum c || c = '_'))

/-- `char::is_alphanumeric` restricted to the ASCII range, where it
agrees with `Char.isAlphanum`. -/
def rustAlnum (c : Char) : Bool :=
  c.isAlphanum

/-- `Bundler::dependency_to_variable_name`: replace `/ - . @` with `_`,
then drop every remaining character that is not alphanumeric or `_`. -/
def dependency_to_variable_name (dep_name : String) : String :=
  sanitizeWith rustAlnum dep_name

/-- `Bundler::dependency_to_global_name`. -/
def dependency_to_global_name (dep_name : String) : String :=
  if dep_name = "lodash" then "_"
  else if dep_name = "jquery" then "$"
  else String.mk (dep_name.data.map (fun c => if c = '/' || c = '-' then '_' else c))

/-! ## Node-API registry (`analyzer.rs`, `NodeApiRegistry`) -/

/-- The registry built by `NodeApiRegistry::new`: the incompatible set,
the polyfillable name map and the suggestion map. -/
structure NodeApiRegistry where
  incompatible_apis : List String
  polyfillable_apis : List (String × String)
  replaceable_apis : List (String × String)
deriving DecidableEq, Repr

/-- `NodeApiRegistry::new`. -/
def NodeApiRegistry.new : NodeApiRegistry :=
  { incompatible_apis :=
      ["fs", "child_process", "cluster", "worker_threads", "os", "net", "http", "https"]
    polyfillable_apis :=
      [("crypto", "crypto"), ("buffer", "buffer"), ("events", "events"),
       ("process", "process"), ("util", "util"), ("path", "path")]
    replaceable_apis :=
      [("crypto", "Use Web Crypto API"),
       ("fs", "File system operations not available in browser")] }

/-- `NodeApiRegistry::is_incompatible`. -/
def NodeApiRegistry.is_incompatible (r : NodeApiRegistry) (api : String) : Bool :=
  r.incompatible_apis.contains api

/-- `NodeApiRegistry::get_polyfill`. -/
def NodeApiRegistry.get_polyfill (r : NodeApiRegistry) (api : String) : Option String :=
  (r.polyfillable_apis.lookup api)

/-- `NodeApiRegistry::is_node_api`. -/
def NodeApiRegistry.is_node_api (r : NodeApiRegistry) (api : String) : Bool :=
  r.is_incompatible api || (r.polyfillable_apis.lookup api).isSome

/-- `NodeApiRegistry::get_suggestion`. -/
def NodeApiRegistry.get_suggestion (r : NodeApiRegistry) (api : String) : Option String :=
  r.replaceable_apis.lookup api

/-! ## Dependency classification and feasibility (`analyzer.rs`) -/

/-- `DependencyAnalysis` record of `converter.rs`. -/
structure DependencyAnalysis where
  total_dependencies : Nat
  problematic_dependencies : List String
  browser_compatible : List String
  needs_polyfills : List String
  circular_dependencies : List (List String)
deriving DecidableEq, Repr

/-- Number of Error-level issues in a list
(the `critical_errors` count of `is_conversion_feasible` and the
`error_count` of `calculate_compatibility_score`). -/
def errorCount (issues : List CompatibilityIssue) : Nat :=
  (issues.filter (fun i => i.level = IssueLevel.error)).length

/-- Number of Warning-level issues in a list. -/
def warningCount (issues : List CompatibilityIssue) : Nat :=
  (issues.filter (fun i => i.level = IssueLevel.warning)).length

/-- `PackageAnalyzer::is_conversion_feasible`: fewer than 5 Error-level
issues, and no more than 50% problematic dependencies. -/
def is_conversion_feasible (issues : List CompatibilityIssue)
    (deps : DependencyAnalysis) : Bool :=
  decide (errorCount issues < 5) &&
    (decide (deps.total_dependencies = 0) ||
      decide (deps.problematic_dependencies.length * 2 ≤ deps.total_dependencies))

/-! ## Rust string utilities used by the bundler -/

/-- Split a character list at a separator character (keeping empty
segments). -/
def splitCharL (sep : Char) : List Char → List (List Char)
  | [] => [[]]
  | c :: cs =>
    if c = sep then [] :: splitCharL sep cs
    else
      match splitCharL sep cs with
      | [] => [[c]]
      | l :: ls => (c :: l) :: ls

/-- Split a character list at newline characters (keeping empty segments). -/
def splitNl (cs : List Char) : List (List Char) :=
  splitCharL '\n' cs

/-- Strip one trailing carriage return. -/
def stripCR (l : List Char) : List Char :=
  if l.getLast? = some '\r' then l.dropLast else l

/-- Rust `str::lines` on the split segments: every `\n`-terminated
segment loses a trailing `\r`, and an empty final segment (from a
trailing newline or an empty string) is dropped. -/
def linesRustAux : List (List Char) → List (List Char)
  | [] => []
  | [last] => if last.isEmpty then [] else [last]
  | seg :: rest => stripCR seg :: linesRustAux rest

/-- Rust `str::lines`. -/
def linesRust (s : String) : List String :=
  (linesRustAux (splitNl s.data)).map String.mk

/-- Rust `str::trim_end` (trailing whitespace removed). -/
def trimEndL (l : List Char) : List Char :=
  (l.reverse.dropWhile (fun c => isWsChar c)).reverse

/-- Rust `str::trim` (whitespace removed at both ends). -/
def trimL (l : List Char) : List Char :=
  trimEndL (l.dropWhile (fun c => isWsChar c))

/-- `replace_all` of the pattern `\n\s*\n\s*\n` by two newlines
(`clean_bundle` of `bundler.rs`).  With greedy `\s*`, a match starting
at a newline spans to the last newline of the maximal whitespace run
there, provided the run holds at least three newlines; scanning resumes
after the match, as `replace_all` does. -/
def collapseNlAux : Nat → List Char → List Char
  | 0, cs => cs
  | _ + 1, [] => []
  | fuel + 1, c :: cs =>
    if c = '\n' then
      let run := (c :: cs).takeWhile (fun d => isWsChar d)
      if 3 ≤ run.count '\n' then
        let rest := (c :: cs).dropWhile (fun d => isWsChar d)
        let tailWs := (run.reverse.takeWhile (fun d => d ≠ '\n')).reverse
        '\n' :: '\n' :: collapseNlAux fuel (tailWs ++ rest)
      else c :: collapseNlAux fuel cs
    else c :: collapseNlAux fuel cs

/-- `Bundler::clean_bundle`: collapse triple blank runs, then trim the
end of every line and re-join. -/
def clean_bundle (code : String) : String :=
  let cleaned := String.mk (collapseNlAux code.data.length code.data)
  String.intercalate "\n" ((linesRust cleaned).map (fun l => String.mk (trimEndL l.data)))

/-- Insert a string into an ascending list (Rust `Vec::sort` on the
collected export names). -/
def insertSorted (x : String) : List String → List String
  | [] => [x]
  | y :: ys => if x ≤ y then x :: y :: ys else y :: insertSorted x ys

/-- Ascending insertion sort on strings. -/
def sortStrings : List String → List String
  | [] => []
  | x :: xs => insertSorted x (sortStrings xs)

/-- Remove consecutive duplicates after a fixed head (Rust `Vec::dedup`). -/
def dedupAdjGo (x : String) : List String → List String
  | [] => [x]
  | y :: rest => if x = y then dedupAdjGo x rest else x :: dedupAdjGo y rest

/-- Rust `Vec::dedup`: remove consecutive duplicate elements. -/
def dedupAdj : List String → List String
  | [] => []
  | x :: rest => dedupAdjGo x rest

/-- The signature `line.trim().split('{').next()` of `deduplicate_code`:
the trimmed line up to its first opening brace. -/
def funcSignature (t : List Char) : List Char :=
  t.takeWhile (fun c => c ≠ '\x7b')

/-- The line filter of `Bundler::deduplicate_code`: a line whose trimmed
form starts with `function ` is kept only when its signature was not
seen before. -/
def dedupLinesAux : List (List Char) → List String → List String
  | _, [] => []
  | seen, line :: rest =>
    let t := trimL line.data
    if (stripPrefixL "function ".data t).isSome then
      let sig := funcSignature t
      if seen.contains sig then dedupLinesAux seen rest
      else line :: dedupLinesAux (sig :: seen) rest
    else line :: dedupLinesAux seen rest

/-- `Bundler::deduplicate_code`. -/
def deduplicate_code (code : String) : String :=
  String.intercalate "\n" (dedupLinesAux [] (linesRust code))

/-! ## Bundle validation and options (`bundler.rs`) -/

/-- `Bundler::validate_bundle`: balanced brace and parenthesis counts,
then the byte-size budget.  On an imbalance the source returns
`PaktoError::BundleTooLarge { size: 0, max: 0 }` with the comment
`// Placeholder error`. -/
def validate_bundle (cfg : Config) (code : String) : Except PaktoError Unit :=
  if code.data.count '\x7b' ≠ code.data.count '\x7d' then
    .error (.bundleTooLarge 0 0)
  else if code.data.count '(' ≠ code.data.count ')' then
    .error (.bundleTooLarge 0 0)
  else if cfg.bundle.max_size < code.utf8ByteSize then
    .error (.bundleTooLarge code.utf8ByteSize cfg.bundle.max_size)
  else
    .ok ()

/-- `BundleOptions` of `bundler.rs`; compiled exclude regexes are kept
as their pattern strings. -/
structure BundleOptions where
  tree_shake : Bool
  deduplicate : Bool
  inline_small_modules : Bool
  max_inline_size : Nat
  exclude_patterns : List String
deriving DecidableEq, Repr

/-- `Bundler::create_bundle_options`; `regexCompiles` is the oracle for
`Regex::new` succeeding on a user-supplied exclude pattern. -/
def create_bundle_options (cfg : Config) (regexCompiles : String → Bool)
    (strategy : BundleStrategy) (exclude_dependencies : List String) :
    Except PaktoError BundleOptions :=
  match exclude_dependencies.find? (fun p => !regexCompiles p) with
  | some p => .error (.regexError p)
  | none =>
    .ok { tree_shake := strategy == .selective || strategy == .hybrid
          deduplicate := true
          inline_small_modules := strategy == .inline || strategy == .hybrid
          max_inline_size := cfg.bundle.max_size / 10
          exclude_patterns := exclude_dependencies }

/-- Whether a string starts with a given character. -/
def startsWithChar (s : String) (c : Char) : Bool :=
  s.data.head? = some c

/-- `Bundler::should_bundle_dependency`. -/
def should_bundle_dependency (cfg : Config) (dep_name : String) : Bool :=
  if ["fs", "path", "crypto", "http", "https", "os", "child_process"].contains dep_name then
    false
  else if cfg.bundle.exclude_dependencies.contains dep_name then false
  else if cfg.bundle.force_inline.contains dep_name then true
  else startsWithChar dep_name '.' || startsWithChar dep_name '/'

/-! ## Dependency analysis and assembly (`bundler.rs`) -/

/-- `DependencyAnalysisResult` of `bundler.rs`. -/
structure DependencyAnalysisResult where
  total_dependencies : Nat
  bundled_dependencies : List String
  external_dependencies : List String
  circular_dependencies : List (List String)
  unused_dependencies : List String
  estimated_size : Nat
deriving DecidableEq, Repr

/-- `Bundler::detect_circular_dependencies`: the source is a stub that
always returns the empty set (its comment: `Simple placeholder
implementation`). -/
def detect_circular_dependencies (dependencies : List String) : List (List String) :=
  []

/-- `Bundler::estimate_bundle_size`: 5KB per dependency. -/
def estimate_bundle_size (dependencies : List String) : Nat :=
  dependencies.length * 5120

/-- `Bundler::analyze_dependencies`: extract require and import
specifiers, split them by `should_bundle_dependency`, count distinct
names. -/
def analyze_dependencies (cfg : Config) (code : String) : DependencyAnalysisResult :=
  let reqs := findRequires code
  let imps := findImports code
  let bundled := reqs.filter (fun d => should_bundle_dependency cfg d)
      ++ imps.filter (fun d => should_bundle_dependency cfg d)
  let ext := reqs.filter (fun d => !should_bundle_dependency cfg d)
      ++ imps.filter (fun d => !should_bundle_dependency cfg d)
  { total_dependencies := (reqs ++ imps).dedup.length
    bundled_dependencies := bundled
    external_dependencies := ext
    circular_dependencies := detect_circular_dependencies bundled
    unused_dependencies := []
    estimated_size := estimate_bundle_size bundled }

/-- `Bundler::resolve_and_load_dependency`: the source returns a fixed
placeholder module text. -/
def resolve_and_load_dependency (dep_name : String) : String :=
  "// Placeholder for dependency: " ++ dep_name ++ "\nvar " ++
    dependency_to_variable_name dep_name ++ " = \x7b\x7d;"

/-- Indent every line by four spaces and re-join (the line mapping
inside `wrap_dependency_code`). -/
def indent4 (code : String) : String :=
  String.intercalate "\n" ((linesRust code).map (fun l => "    " ++ l))

/-- `Bundler::wrap_dependency_code`: the isolating factory wrapper. -/
def wrap_dependency_code (dep_name : String) (code : String) : String :=
  "  var " ++ dependency_to_variable_name dep_name ++
    " = (function() \x7b\n    var module = \x7b exports: \x7b\x7d \x7d;\n    var exports = module.exports;\n    \n" ++
    indent4 code ++
    "\n    \n    return module.exports;\n  \x7d)();"

/-- The dependency loop of `Bundler::bundle_inline`, with its
`processed_modules` set. -/
def bundleInlineDeps : List String → List String → String
  | _, [] => ""
  | processed, dep :: rest =>
    if processed.contains dep then bundleInlineDeps processed rest
    else
      "\n  // === Dependency: " ++ dep ++ " ===\n" ++
        wrap_dependency_code dep (resolve_and_load_dependency dep) ++ "\n" ++
        bundleInlineDeps (dep :: processed) rest

/-- `Bundler::bundle_inline`. -/
def bundle_inline (main_code : String) (deps : DependencyAnalysisResult) : String :=
  bundleInlineDeps [] deps.bundled_dependencies ++
    "\n  // === Main Module ===\n" ++ main_code

/-- Try to match `<var>\.(\w+)` at the head of the list (the usage
pattern of `analyze_used_exports`). -/
def matchUsageAt (var_name : List Char) (cs : List Char) : Option (String × List Char) :=
  match stripPrefixL var_name cs with
  | none => none
  | some r1 =>
    match stripPrefixL ".".data r1 with
    | none => none
    | some r2 =>
      let cap := r2.takeWhile (fun c => isWordChar c)
      if cap.isEmpty then none
      else some (String.mk cap, r2.dropWhile (fun c => isWordChar c))

/-- All captures of the usage pattern for one bound variable name. -/
def findUsages (var_name : String) (code : String) : List String :=
  scanMatches (matchUsageAt var_name.data) code.data.length code.data

/-- `Bundler::analyze_used_exports`: for each dependency, the sorted,
deduplicated property names accessed through its bound variable; a
dependency with no detected usage gets no entry.  (The source stores
the entries in a `HashMap`; its arbitrary iteration order is modelled
as insertion order.) -/
def analyze_used_exports (code : String) (dependencies : List String) :
    List (String × List String) :=
  dependencies.filterMap (fun dep =>
    let exports := findUsages (dependency_to_variable_name dep) code
    if exports.isEmpty then none
    else some (dep, dedupAdj (sortStrings exports)))

/-- `Bundler::tree_shake_module`. -/
def tree_shake_module (code : String) (used_exports : List String) : String :=
  if used_exports.isEmpty then "// Tree-shaken: no exports used\n"
  else
    "// Tree-shaken module (keeping: " ++ String.intercalate ", " used_exports ++
      ")\n" ++ code

/-- `Bundler::bundle_selective`. -/
def bundle_selective (main_code : String) (deps : DependencyAnalysisResult) : String :=
  let used := analyze_used_exports main_code deps.bundled_dependencies
  String.join (used.map (fun p =>
      "\n  // === Dependency: " ++ p.1 ++ " (tree-shaken) ===\n" ++
        wrap_dependency_code p.1
          (tree_shake_module (resolve_and_load_dependency p.1) p.2) ++ "\n"))
    ++ "\n  // === Main Module ===\n" ++ main_code

/-- `Bundler::bundle_external`: a runtime guard per external dependency. -/
def bundle_external (main_code : String) (deps : DependencyAnalysisResult) : String :=
  (if deps.external_dependencies.isEmpty then ""
   else
     "\n  // === External Dependencies ===\n" ++
       String.join (deps.external_dependencies.map (fun dep =>
         "  if (typeof " ++ dependency_to_global_name dep ++
           " === 'undefined') \x7b\n    throw new Error('External dependency not found: " ++
           dep ++ "');\n  \x7d\n")) ++ "\n")
    ++ "  // === Main Module ===\n" ++ main_code

/-- `Bundler::should_inline_dependency`; `isMatch` is the oracle for
`Regex::is_match` of a compiled exclude pattern. -/
def should_inline_dependency (isMatch : String → String → Bool)
    (opts : BundleOptions) (dep_name : String) : Bool :=
  if opts.exclude_patterns.any (fun p => isMatch p dep_name) then false
  else if opts.inline_small_modules then
    decide (dep_name.utf8ByteSize * 100 < opts.max_inline_size)
  else true

/-- `Bundler::bundle_hybrid`. -/
def bundle_hybrid (isMatch : String → String → Bool) (opts : BundleOptions)
    (main_code : String) (deps : DependencyAnalysisResult) : String :=
  let inlined := deps.bundled_dependencies.filter
      (fun d => should_inline_dependency isMatch opts d)
  let externalDeps := deps.bundled_dependencies.filter
      (fun d => !should_inline_dependency isMatch opts d)
  String.join (inlined.map (fun dep =>
      "\n  // === Inlined: " ++ dep ++ " ===\n" ++
        wrap_dependency_code dep (resolve_and_load_dependency dep) ++ "\n"))
    ++ (if externalDeps.isEmpty then ""
        else
          "\n  // === External Dependencies ===\n" ++
            String.join (externalDeps.map (fun dep =>
              "  var " ++ dependency_to_variable_name dep ++ " = global." ++
                dependency_to_global_name dep ++ " || require('" ++ dep ++ "');\n")) ++
            "\n")
    ++ "  // === Main Module ===\n" ++ main_code

/-- `Bundler::optimize_bundle`: deduplicate, clean, validate. -/
def optimize_bundle (cfg : Config) (code : String) (opts : BundleOptions) :
    Except PaktoError String :=
  let optimized := if opts.deduplicate then deduplicate_code code else code
  let optimized := clean_bundle optimized
  (validate_bundle cfg optimized).map (fun _ => optimized)

/-- `BundledCode` of `converter.rs`. -/
structure BundledCode where
  code : String
  bundled_dependencies : List String
  unminified_size : Nat
deriving DecidableEq, Repr

/-- `Bundler::bundle`: analyze dependencies, build options, dispatch on
the strategy, optimize and validate.  The returned
`bundled_dependencies` list is the one computed by
`analyze_dependencies` before the dispatch. -/
def bundle (cfg : Config) (regexCompiles : String → Bool)
    (isMatch : String → String → Bool) (strategy : BundleStrategy)
    (exclude_dependencies : List String) (transformedCode : String) :
    Except PaktoError BundledCode :=
  let dependencies := analyze_dependencies cfg transformedCode
  (create_bundle_options cfg regexCompiles strategy exclude_dependencies).bind
    (fun opts =>
      let bundled_code :=
        match strategy with
        | .inline => bundle_inline transformedCode dependencies
        | .selective => bundle_selective transformedCode dependencies
        | .external => bundle_external transformedCode dependencies
        | .hybrid => bundle_hybrid isMatch opts transformedCode dependencies
      (optimize_bundle cfg bundled_code opts).map
        (fun optimized =>
          { code := optimized
            bundled_dependencies := dependencies.bundled_dependencies
            unminified_size := bundled_code.utf8ByteSize }))

/-! ## AST visitor (`analyzer.rs`, `CompatibilityVisitor`) -/

/-- The module references a parsed file's AST yields to the visitor:
literal-argument `require` calls (`visit_call_expr`), import
declarations (`visit_import_decl`) and exported declaration names
(`visit_export_decl`). -/
inductive ModRef where
  | require (name : String)
  | importDecl (name : String)
  | exportDecl (name : String)
deriving DecidableEq, Repr

/-- The issue `visit_call_expr` records for a literal
`require(<name>)`: only fs, crypto, child_process and os are checked;
fs and child_process give an Error, crypto and os a Warning. -/
def visitRequireIssue (file name : String) : Option CompatibilityIssue :=
  if name = "fs" || name = "crypto" || name = "child_process" || name = "os" then
    some { level := if name = "fs" || name = "child_process" then .error else .warning
           message := "Node.js API usage: " ++ name
           location := some (CodeLocation.new file)
           suggestion := some "Consider using browser-compatible alternatives"
           api := some name }
  else none

/-- The issue `visit_import_decl` records for an import source, with
the same four-name check as `visit_call_expr`. -/
def visitImportIssue (file name : String) : Option CompatibilityIssue :=
  if name = "fs" || name = "crypto" || name = "child_process" || name = "os" then
    some { level := if name = "fs" || name = "child_process" then .error else .warning
           message := "Node.js API import: " ++ name
           location := some (CodeLocation.new file)
           suggestion := some "Consider using browser-compatible alternatives"
           api := some name }
  else none

/-- The state `CompatibilityVisitor` accumulates over one file. -/
structure VisitorOut where
  issues : List CompatibilityIssue
  imports : List String
  exports : List String
deriving DecidableEq, Repr

/-- Run the visitor over a file's module references. -/
def runVisitor (file : String) (refs : List ModRef) : VisitorOut :=
  { issues := refs.filterMap (fun r =>
      match r with
      | .require n => visitRequireIssue file n
      | .importDecl n => visitImportIssue file n
      | .exportDecl _ => none)
    imports := refs.filterMap (fun r =>
      match r with
      | .require n => some n
      | .importDecl n => some n
      | .exportDecl _ => none)
    exports := refs.filterMap (fun r =>
      match r with
      | .exportDecl n => some n
      | _ => none) }

/-! ## Per-file analysis (`analyzer.rs`) -/

/-- `SyntaxType` of `analyzer.rs`. -/
inductive SyntaxType where
  | javascript
  | typescript
  | jsx
  | tsx
deriving DecidableEq, Repr

/-- `ModuleType` of `analyzer.rs`. -/
inductive ModuleType where
  | commonJs
  | esModules
  | umd
  | iife
  | unknown
deriving DecidableEq, Repr

/-- `ApiUsageType` of `analyzer.rs`. -/
inductive ApiUsageType where
  | directCall
  | requireStatement
  | importStatement
  | propertyAccess
deriving DecidableEq, Repr

/-- `ImportInfo` of `analyzer.rs`. -/
structure ImportInfo where
  source : String
  specifiers : List String
  is_dynamic : Bool
  location : Option CodeLocation
deriving DecidableEq, Repr

/-- `ExportInfo` of `analyzer.rs`. -/
structure ExportInfo where
  name : Option String
  is_default : Bool
  location : Option CodeLocation
deriving DecidableEq, Repr

/-- `NodeApiUsage` of `analyzer.rs`. -/
structure NodeApiUsage where
  api : String
  usage_type : ApiUsageType
  location : Option CodeLocation
deriving DecidableEq, Repr

/-- `FileAnalysis` of `analyzer.rs`. -/
structure FileAnalysis where
  path : String
  syntax_type : SyntaxType
  module_type : ModuleType
  imports : List ImportInfo
  exports : List ExportInfo
  node_api_usage : List NodeApiUsage
  issues : List CompatibilityIssue
  estimated_size : Nat
deriving DecidableEq, Repr

/-- Rust `str::contains` for a literal pattern. -/
def isInfixL (pat : List Char) : List Char → Bool
  | [] => pat.isEmpty
  | c :: cs => (stripPrefixL pat (c :: cs)).isSome || isInfixL pat cs

/-- Rust `str::contains` on strings. -/
def containsSub (s pat : String) : Bool :=
  isInfixL pat.data s.data

/-- Rust `Path::extension`: the part of the final component after its
last dot; none when there is no dot or the only dot starts a hidden
file name. -/
def fileExtension (path : String) : Option String :=
  let name := (splitCharL '/' path.data).getLastD []
  match splitCharL '.' name with
  | [] => none
  | [_] => none
  | [first, ext] => if first.isEmpty then none else some (String.mk ext)
  | parts => some (String.mk (parts.getLastD []))

/-- Rust `str::to_lowercase` on the ASCII range. -/
def toLowerStr (s : String) : String :=
  String.mk (s.data.map Char.toLower)

/-- The analyzable extensions of `should_analyze_file` and
`should_transform_file`. -/
def analyzableExt (e : String) : Bool :=
  ["js", "ts", "jsx", "tsx", "mjs", "cjs"].contains e

/-- `PackageAnalyzer::should_analyze_file`. -/
def should_analyze_file (path : String) : Bool :=
  match fileExtension path with
  | some e => analyzableExt (toLowerStr e)
  | none => false

/-- `CodeTransformer::should_transform_file` (`transformer.rs`, same
extension test). -/
def should_transform_file (path : String) : Bool :=
  match fileExtension path with
  | some e => analyzableExt (toLowerStr e)
  | none => false

/-- `PackageAnalyzer::detect_syntax_type`. -/
def detect_syntax_type (path content : String) : SyntaxType :=
  match fileExtension path with
  | some e =>
    match toLowerStr e with
    | "ts" => .typescript
    | "tsx" => .tsx
    | "jsx" => .jsx
    | "js" | "mjs" | "cjs" =>
      if containsSub content "<" && containsSub content "/>" then .jsx else .javascript
    | _ => .javascript
  | none => .javascript

/-- `PackageAnalyzer::detect_module_type`, with its fixed precedence. -/
def detect_module_type (content : String) : ModuleType :=
  if containsSub content "module.exports" || containsSub content "exports." then .commonJs
  else if containsSub content "import " || containsSub content "export " then .esModules
  else if containsSub content "(function (global, factory)" then .umd
  else if containsSub content "(function()" || containsSub content "(function ()" then .iife
  else .unknown

/-- The three-way module-type detection inlined in
`regex_based_analysis`. -/
def fallbackModuleType (content : String) : ModuleType :=
  if containsSub content "module.exports" || containsSub content "exports." then .commonJs
  else if containsSub content "import " || containsSub content "export " then .esModules
  else .unknown

/-- `PackageAnalyzer::extract_imports`. -/
def extract_imports (imports : List String) : List ImportInfo :=
  imports.map (fun source =>
    { source := source, specifiers := [], is_dynamic := false, location := none })

/-- `PackageAnalyzer::extract_exports`. -/
def extract_exports (exports : List String) : List ExportInfo :=
  exports.map (fun name =>
    { name := some name, is_default := name == "default", location := none })

/-- `PackageAnalyzer::analyze_node_api_usage`: one usage per issue that
names an api. -/
def analyze_node_api_usage (issues : List CompatibilityIssue) : List NodeApiUsage :=
  issues.filterMap (fun i =>
    i.api.map (fun a =>
      { api := a, usage_type := .directCall, location := i.location }))

/-- The clause `\s+from\s+['"`]([^'"`]+)['"`]` of the analyzer's import
pattern. -/
def matchFromClause (cs : List Char) : Option (String × List Char) := do
  let r1 ← dropWs1 cs
  let r2 ← stripPrefixL "from".data r1
  let r3 ← dropWs1 r2
  matchQuoted r3

/-- The lazy `.*?` before the from-clause: try the clause at each
position, consuming non-newline characters one at a time. -/
def lazyFromScan : List Char → Option (String × List Char)
  | [] => none
  | c :: cs =>
    match matchFromClause (c :: cs) with
    | some out => some out
    | none => if c = '\n' then none else lazyFromScan cs

/-- Try to match `import\s+.*?\s+from\s+['"`]([^'"`]+)['"`]` at the head
of the list (the `import_regex` of `regex_based_analysis`). -/
def matchImportFromAt (cs : List Char) : Option (String × List Char) := do
  let r1 ← stripPrefixL "import".data cs
  let r2 ← dropWs1 r1
  lazyFromScan r2

/-- All captures of the analyzer's import pattern. -/
def findImportFroms (code : String) : List String :=
  scanMatches matchImportFromAt code.data.length code.data

/-- `PackageAnalyzer::regex_based_analysis`: the fallback scan for a
file the parser rejected.  Incompatible required names give Error
issues; node-API required names (incompatible or polyfillable) give
usages; no Warning-level issue about the degraded analysis is
recorded. -/
def regex_based_analysis (reg : NodeApiRegistry) (path content : String) : FileAnalysis :=
  let reqNames := findRequires content
  let issues := reqNames.filterMap (fun m =>
    if reg.is_node_api m && reg.is_incompatible m then
      some { level := .error
             message := "Incompatible Node.js API: " ++ m
             location := some (CodeLocation.new path)
             suggestion := reg.get_suggestion m
             api := some m }
    else none)
  let usages := reqNames.filterMap (fun m =>
    if reg.is_node_api m then
      some { api := m, usage_type := ApiUsageType.requireStatement,
             location := some (CodeLocation.new path) }
    else none)
  let impNames := findImportFroms content
  { path := path
    syntax_type := detect_syntax_type path content
    module_type := fallbackModuleType content
    imports := (reqNames ++ impNames).map (fun source =>
      { source := source, specifiers := [], is_dynamic := false,
        location := some (CodeLocation.new path) })
    exports := []
    node_api_usage := usages
    issues := issues
    estimated_size := content.utf8ByteSize }

/-- A source file given to the analyzer, with the outcome of the
external SWC parse as an oracle: the module references the AST visitor
would see, or `none` when the file does not parse. -/
structure SrcFile where
  path : String
  content : String
  parsed : Option (List ModRef)

/-- `PackageAnalyzer::analyze_file`: visit the AST on parse success,
fall back to the regex scan on failure.  Both branches return `ok`; the
`anyhow` error channel (modelled by `String`) is reachable only from
the fixed-pattern regex constructors, which cannot fail. -/
def analyze_file (reg : NodeApiRegistry) (f : SrcFile) : Except String FileAnalysis :=
  match f.parsed with
  | some refs =>
    let v := runVisitor f.path refs
    .ok { path := f.path
          syntax_type := detect_syntax_type f.path f.content
          module_type := detect_module_type f.content
          imports := extract_imports v.imports
          exports := extract_exports v.exports
          node_api_usage := analyze_node_api_usage v.issues
          issues := v.issues
          estimated_size := f.content.utf8ByteSize }
  | none => .ok (regex_based_analysis reg f.path f.content)

/-- The accumulating state of the per-file loop in
`PackageAnalyzer::analyze`. -/
structure BatchAnalysis where
  file_analyses : List FileAnalysis
  all_issues : List CompatibilityIssue
  required_polyfills : List String
deriving DecidableEq, Repr

/-- One iteration of the analyzer's per-file loop: a successful
analysis contributes its issues and polyfills; a failed one records a
single Warning-level issue and continues.  (`required_polyfills` is a
`HashSet` in the source; the list here carries the same members.) -/
def analyzeStep (reg : NodeApiRegistry) (acc : BatchAnalysis) (f : SrcFile) :
    BatchAnalysis :=
  if should_analyze_file f.path then
    match analyze_file reg f with
    | .ok analysis =>
      { file_analyses := acc.file_analyses ++ [analysis]
        all_issues := acc.all_issues ++ analysis.issues
        required_polyfills := acc.required_polyfills ++
          analysis.node_api_usage.filterMap (fun u => reg.get_polyfill u.api) }
    | .error e =>
      { acc with
          all_issues := acc.all_issues ++
            [{ level := .warning
               message := "Failed to parse file: " ++ e
               location := some (CodeLocation.new f.path)
               suggestion := some "File may contain syntax errors or unsupported features"
               api := none }] }
  else acc

/-- The per-file loop of `PackageAnalyzer::analyze`. -/
def analyze_files (reg : NodeApiRegistry) (files : List SrcFile) : BatchAnalysis :=
  files.foldl (analyzeStep reg)
    { file_analyses := [], all_issues := [], required_polyfills := [] }

/-- `PackageAnalyzer::calculate_compatibility_score`.  The source
computes in `f32`; the constants 0.1 and 0.05 and the arithmetic are
modelled exactly over the rationals. -/
def calculate_compatibility_score (issues : List CompatibilityIssue)
    (files : List FileAnalysis) : ℚ :=
  if files.isEmpty then 0
  else
    let penalty : ℚ :=
      (errorCount issues : ℚ) * (1 / 10) + (warningCount issues : ℚ) * (1 / 20)
    max (1 - penalty) 0

/-! ## Transformer batch loop (`transformer.rs`) -/

/-- A file given to `transform_package`, with the outcome of the
external SWC parse/transform/emit pipeline (`transform_file`) as an
oracle: the emitted code with the polyfills the rewrite needed, or the
error. -/
structure TransformFile where
  path : String
  content : String
  transformed : Except String (String × List String)

/-- The accumulating state of the per-file loop in
`CodeTransformer::transform_package`. -/
structure TransformLoopOut where
  transformed_files : List (String × String)
  files_processed : Nat
  all_polyfills : List String
deriving DecidableEq, Repr

/-- One iteration of the transformer's per-file loop: on failure the
original, untransformed content is included and the batch continues. -/
def transformStep (acc : TransformLoopOut) (f : TransformFile) : TransformLoopOut :=
  if should_transform_file f.path then
    match f.transformed with
    | .ok result =>
      { transformed_files := acc.transformed_files ++ [(f.path, result.1)]
        files_processed := acc.files_processed + 1
        all_polyfills := acc.all_polyfills ++ result.2 }
    | .error _ =>
      { transformed_files := acc.transformed_files ++ [(f.path, f.content)]
        files_processed := acc.files_processed + 1
        all_polyfills := acc.all_polyfills }
  else acc

/-- The per-file loop of `CodeTransformer::transform_package`. -/
def transform_package_files (files : List TransformFile) : TransformLoopOut :=
  files.foldl transformStep
    { transformed_files := [], files_processed := 0, all_polyfills := [] }

/-! ## Helper lemmas -/

/-- The symbol replacement of the sanitizer is idempotent on characters. -/
theorem replSanChar_idem (c : Char) : replSanChar (replSanChar c) = replSanChar c := by
  by_cases h1 : c = '/'
  · subst h1; rfl
  · by_cases h2 : c = '-'
    · subst h2; rfl
    · by_cases h3 : c = '.'
      · subst h3; rfl
      · by_cases h4 : c = '@'
        · subst h4; rfl
        · have hfix : replSanChar c = c := by simp [replSanChar, h1, h2, h3, h4]
          rw [hfix, hfix]

/-- Mapping a function that fixes every element and filtering by a
predicate every element satisfies changes nothing. -/
theorem map_filter_eq_self {α : Type} (p : α → Bool) (f : α → α) :
    ∀ l : List α, (∀ c ∈ l, f c = c) → (∀ c ∈ l, p c = true) →
      (l.map f).filter p = l := by
  intro l
  induction l with
  | nil => intro _ _; rfl
  | cons a t ih =>
    intro hf hp
    simp only [List.map_cons, List.filter_cons]
    rw [hf a (List.mem_cons_self a t), hp a (List.mem_cons_self a t)]
    simp only [if_true]
    rw [ih (fun c hc => hf c (List.mem_cons_of_mem _ hc))
        (fun c hc => hp c (List.mem_cons_of_mem _ hc))]

/-- The sanitizer is idempotent for every alphanumeric predicate, the
Unicode one of `char::is_alphanumeric` included. -/
theorem sanitizeWith_idem (alnum : Char → Bool) (s : String) :
    sanitizeWith alnum (sanitizeWith alnum s) = sanitizeWith alnum s := by
  apply congrArg String.mk
  show (((s.data.map replSanChar).filter (fun c => alnum c || c = '_')).map
        replSanChar).filter (fun c => alnum c || c = '_') =
      (s.data.map replSanChar).filter (fun c => alnum c || c = '_')
  refine map_filter_eq_self _ _ _ ?_ ?_
  · intro c hc
    obtain ⟨d, _, rfl⟩ := List.mem_map.mp (List.mem_of_mem_filter hc)
    exact replSanChar_idem d
  · intro c hc
    simpa using List.of_mem_filter hc

/-- An `Except.bind` that succeeds factors through a success of its
first stage. -/
theorem except_bind_ok {ε α β : Type} (f : α → Except ε β) (x : Except ε α) (b : β)
    (h : x.bind f = .ok b) : ∃ a, x = .ok a ∧ f a = .ok b := by
  cases x with
  | error e => simp [Except.bind] at h
  | ok a => exact ⟨a, rfl, h⟩

/-- An `Except.map` that succeeds factors through a success of its
argument. -/
theorem except_map_ok {ε α β : Type} (g : α → β) (x : Except ε α) (b : β)
    (h : x.map g = .ok b) : ∃ a, x = .ok a ∧ g a = b := by
  cases x with
  | error e => simp [Except.map] at h
  | ok a => simp only [Except.map, Except.ok.injEq] at h; exact ⟨a, rfl, h⟩

/-- Whatever the strategy, a successful `bundle` returns the
`bundled_dependencies` list of `analyze_dependencies`. -/
theorem bundle_ok_bundled_deps (cfg : Config) (rc : String → Bool)
    (im : String → String → Bool) (s : BundleStrategy) (excl : List String)
    (code : String) (b : BundledCode)
    (h : bundle cfg rc im s excl code = .ok b) :
    b.bundled_dependencies = (analyze_dependencies cfg code).bundled_dependencies := by
  simp only [bundle] at h
  obtain ⟨opts, _, h2⟩ := except_bind_ok _ _ _ h
  obtain ⟨opt, _, h3⟩ := except_map_ok _ _ _ h2
  rw [← h3]

/-! ## Claim theorems -/

/-- C1: the feasibility flag is true iff the Error-level issue count is
below 5 and either the dependency total is 0 or twice the problematic
count is at most the total; the boundary case of exactly half
problematic dependencies is feasible. -/
theorem feasibility_iff :
    (∀ (issues : List CompatibilityIssue) (deps : DependencyAnalysis),
       is_conversion_feasible issues deps = true ↔
         (errorCount issues < 5 ∧
           (deps.total_dependencies = 0 ∨
             deps.problematic_dependencies.length * 2 ≤ deps.total_dependencies))) ∧
    (∀ (issues : List CompatibilityIssue) (deps : DependencyAnalysis),
       errorCount issues < 5 →
       deps.problematic_dependencies.length * 2 = deps.total_dependencies →
       is_conversion_feasible issues deps = true) := by
  constructor
  · intro issues deps
    simp [is_conversion_feasible]
  · intro issues deps h1 h2
    simp only [is_conversion_feasible, Bool.and_eq_true, Bool.or_eq_true,
      decide_eq_true_eq]
    exact ⟨h1, Or.inr (le_of_eq h2)⟩

/-- C1 witness: two problematic of four total dependencies sit on the
inclusive boundary and are feasible with no issues. -/
theorem feasibility_iff_witness :
    is_conversion_feasible []
      { total_dependencies := 4, problematic_dependencies := ["left", "right"],
        browser_compatible := [], needs_polyfills := [],
        circular_dependencies := [] } = true :=
  feasibility_iff.2 [] _ (by decide) (by decide)

/-- C2: evaluating `validate_bundle` shows that an unbalanced brace
yields the placeholder `BundleTooLarge 0 0` (there is no
AssemblyImbalance variant), an oversize bundle yields `BundleTooLarge`
with the actual byte size and configured maximum, and balanced code
within budget passes. -/
theorem validate_bundle_eval :
    validate_bundle Config.default "\x7b" = .error (.bundleTooLarge 0 0) ∧
    validate_bundle { bundle := { BundleConfig.default with max_size := 3 } } "aaaa" =
      .error (.bundleTooLarge 4 3) ∧
    validate_bundle Config.default "ok()" = .ok () :=
  ⟨rfl, rfl, rfl⟩

/-- C4: `detect_circular_dependencies` is a stub returning the empty
cycle set on every input, the A→B→C→A configuration included. -/
theorem cycle_detection_stub_eval :
    detect_circular_dependencies ["A", "B", "C"] = [] ∧
    (∀ deps : List String, detect_circular_dependencies deps = []) :=
  ⟨rfl, fun _ => rfl⟩

/-- C9: sanitizing a dependency name twice gives the same result as
sanitizing it once. -/
theorem sanitize_idempotent (s : String) :
    dependency_to_variable_name (dependency_to_variable_name s) =
      dependency_to_variable_name s :=
  sanitizeWith_idem rustAlnum s

/-- C3 counterexample: "net" is in the registry's Incompatible set, yet
the AST visitor records no issue for a require or import of it. -/
theorem visitor_misses_net :
    NodeApiRegistry.new.is_incompatible "net" = true ∧
    visitRequireIssue "index.js" "net" = none ∧
    visitImportIssue "index.js" "net" = none :=
  ⟨rfl, rfl, rfl⟩

/-- C3 (amended): the visitor classifies only fs, crypto, child_process
and os — fs and child_process as Error, crypto and os as Warning, each
naming its api; only a crypto issue contributes a required polyfill;
every other module name yields no issue. -/
theorem visitor_classification (file name : String) :
    ((visitRequireIssue file name).map (fun i => i.level) =
       if name = "fs" ∨ name = "child_process" then some IssueLevel.error
       else if name = "crypto" ∨ name = "os" then some IssueLevel.warning
       else none) ∧
    ((visitRequireIssue file name).bind (fun i => i.api) =
       if name = "fs" ∨ name = "crypto" ∨ name = "child_process" ∨ name = "os" then
         some name
       else none) ∧
    ((visitImportIssue file name).map (fun i => i.level) =
       (visitRequireIssue file name).map (fun i => i.level)) ∧
    ((visitImportIssue file name).isSome = (visitRequireIssue file name).isSome) ∧
    ((visitRequireIssue file name).bind
        (fun i => i.api.bind (fun a => NodeApiRegistry.new.get_polyfill a)) =
       if name = "crypto" then some "crypto" else none) ∧
    ((analyze_files NodeApiRegistry.new
        [{ path := "index.js", content := "",
           parsed := some [ModRef.require "crypto"] }]).required_polyfills =
      ["crypto"]) ∧
    ((analyze_files NodeApiRegistry.new
        [{ path := "index.js", content := "",
           parsed := some [ModRef.require "os"] }]).required_polyfills = []) := by
  by_cases h1 : name = "fs"
  · subst h1; exact ⟨rfl, rfl, rfl, rfl, rfl, rfl, rfl⟩
  · by_cases h2 : name = "crypto"
    · subst h2; exact ⟨rfl, rfl, rfl, rfl, rfl, rfl, rfl⟩
    · by_cases h3 : name = "child_process"
      · subst h3; exact ⟨rfl, rfl, rfl, rfl, rfl, rfl, rfl⟩
      · by_cases h4 : name = "os"
        · subst h4; exact ⟨rfl, rfl, rfl, rfl, rfl, rfl, rfl⟩
        · refine ⟨?_, ?_, ?_, ?_, ?_, rfl, rfl⟩ <;>
            simp [visitRequireIssue, visitImportIssue, h1, h2, h3, h4]

/-- C5 counterexample: under Selective, the bundlable dependency
`./lib` has no detected usage, yet it still appears in the returned
`bundledDependencies` and its name still occurs in the assembled
output (the main code, holding the require, is emitted verbatim). -/
theorem selective_unused_still_listed :
    findUsages (dependency_to_variable_name "./lib") "require('./lib');" = [] ∧
    (bundle Config.default (fun _ => true) (fun _ _ => false) .selective []
        "require('./lib');").map (fun b => b.bundled_dependencies) =
      .ok ["./lib"] ∧
    (bundle Config.default (fun _ => true) (fun _ _ => false) .selective []
        "require('./lib');").map (fun b => containsSub b.code "./lib") = .ok true :=
  ⟨rfl, rfl, rfl⟩

/-- C5 (amended): under Selective, a dependency without detected
usages gets no tree-shaken section (no entry in the used-exports map
the emission iterates), but every bundlable extracted dependency still
appears in the returned `bundledDependencies` list. -/
theorem selective_drops_only_emission :
    (∀ (code : String) (deps : List String) (dep : String),
       findUsages (dependency_to_variable_name dep) code = [] →
       ∀ e, (dep, e) ∉ analyze_used_exports code deps) ∧
    (∀ (cfg : Config) (rc : String → Bool) (im : String → String → Bool)
       (excl : List String) (code : String) (b : BundledCode) (dep : String),
       bundle cfg rc im .selective excl code = .ok b →
       dep ∈ (analyze_dependencies cfg code).bundled_dependencies →
       dep ∈ b.bundled_dependencies) := by
  constructor
  · intro code deps dep h e hmem
    simp only [analyze_used_exports, List.mem_filterMap] at hmem
    obtain ⟨d, _, hf⟩ := hmem
    by_cases hcase : (findUsages (dependency_to_variable_name d) code).isEmpty
    · rw [if_pos hcase] at hf
      exact Option.noConfusion hf
    · rw [if_neg hcase] at hf
      injection hf with hpair
      have hd : d = dep := congrArg Prod.fst hpair
      subst hd
      rw [h] at hcase
      exact hcase rfl
  · intro cfg rc im excl code b dep hb hm
    rw [bundle_ok_bundled_deps cfg rc im .selective excl code b hb]
    exact hm

/-- C5 witness: the unused dependency of the counterexample input has
no used-exports entry. -/
theorem selective_drops_only_emission_witness :
    ("./lib", ["map"]) ∉ analyze_used_exports "require('./lib');" ["./lib"] :=
  selective_drops_only_emission.1 "require('./lib');" ["./lib"] "./lib" rfl ["map"]

/-- C6 counterexample: a source requiring `./a` twice under Inline
returns `bundledDependencies` with two entries for it. -/
theorem inline_duplicate_entries :
    (bundle Config.default (fun _ => true) (fun _ _ => false) .inline []
        "require('./a');require('./a');").map (fun b => b.bundled_dependencies) =
      .ok ["./a", "./a"] :=
  rfl

/-- Counting inside a filtered list. -/
theorem count_filter_eq {α : Type} [DecidableEq α] (p : α → Bool) (d : α)
    (l : List α) :
    (l.filter p).count d = if p d then l.count d else 0 := by
  induction l with
  | nil => simp
  | cons a t ih =>
    by_cases hpa : p a
    · by_cases had : a = d
      · subst had
        simp [List.filter_cons, hpa, List.count_cons, ih]
      · simp [List.filter_cons, hpa, List.count_cons, had, ih]
    · by_cases had : a = d
      · subst had
        simp [List.filter_cons, hpa, List.count_cons, ih]
      · simp [List.filter_cons, hpa, List.count_cons, had, ih]

/-- C6 (amended): under Inline, `bundledDependencies` holds one entry
per extracted require/import occurrence of each bundlable dependency,
so a dependency required n times appears n times (duplicates are not
removed from the list; only the physical emission deduplicates). -/
theorem inline_list_counts_occurrences :
    (∀ (cfg : Config) (rc : String → Bool) (im : String → String → Bool)
       (excl : List String) (code : String) (b : BundledCode),
       bundle cfg rc im .inline excl code = .ok b →
       b.bundled_dependencies = (analyze_dependencies cfg code).bundled_dependencies) ∧
    (∀ (cfg : Config) (code : String) (d : String),
       ((analyze_dependencies cfg code).bundled_dependencies).count d =
         if should_bundle_dependency cfg d then
           (findRequires code).count d + (findImports code).count d
         else 0) := by
  constructor
  · intro cfg rc im excl code b hb
    exact bundle_ok_bundled_deps cfg rc im .inline excl code b hb
  · intro cfg code d
    simp only [analyze_dependencies]
    rw [List.count_append, count_filter_eq, count_filter_eq]
    by_cases h : should_bundle_dependency cfg d
    · simp [h]
    · simp [h]

/-- C6 witness: the count identity evaluated on the duplicated-require
input. -/
theorem inline_list_counts_witness :
    ((analyze_dependencies Config.default
        "require('./a');require('./a');").bundled_dependencies).count "./a" =
      if should_bundle_dependency Config.default "./a" then
        (findRequires "require('./a');require('./a');").count "./a" +
          (findImports "require('./a');require('./a');").count "./a"
      else 0 :=
  inline_list_counts_occurrences.2 Config.default "require('./a');require('./a');" "./a"

/-- The transformer loop's emitted file list: one entry per
transformable file, the transformed code on success, the original text
on failure. -/
theorem transform_foldl_files (files : List TransformFile) :
    ∀ acc, (files.foldl transformStep acc).transformed_files =
      acc.transformed_files ++ files.filterMap (fun f =>
        if should_transform_file f.path then
          some (f.path, match f.transformed with
            | .ok r => r.1
            | .error _ => f.content)
        else none) := by
  induction files with
  | nil => intro acc; simp
  | cons f rest ih =>
    intro acc
    simp only [List.foldl_cons, List.filterMap_cons]
    by_cases h : should_transform_file f.path
    · cases ht : f.transformed with
      | ok r => simp [transformStep, h, ht, ih]
      | error e => simp [transformStep, h, ht, ih]
    · simp [transformStep, h, ih]

/-- The transformer loop's processed-file count. -/
theorem transform_foldl_count (files : List TransformFile) :
    ∀ acc, (files.foldl transformStep acc).files_processed =
      acc.files_processed +
        (files.filter (fun f => should_transform_file f.path)).length := by
  induction files with
  | nil => intro acc; simp
  | cons f rest ih =>
    intro acc
    simp only [List.foldl_cons, List.filter_cons]
    by_cases h : should_transform_file f.path
    · cases ht : f.transformed with
      | ok r => simp [transformStep, h, ht, ih]; omega
      | error e => simp [transformStep, h, ht, ih]; omega
    · simp [transformStep, h, ih]

/-- C7 counterexample: a file whose parse fails is analyzed by the
regex fallback and the batch continues, but no Warning-level issue
about the degraded analysis is recorded. -/
theorem parse_fallback_records_no_warning :
    (analyze_files NodeApiRegistry.new
        [{ path := "index.js", content := "var x = 1;",
           parsed := none }]).all_issues = [] ∧
    (analyze_files NodeApiRegistry.new
        [{ path := "index.js", content := "var x = 1;",
           parsed := none }]).file_analyses.length = 1 :=
  ⟨rfl, rfl⟩

/-- C7 (amended): per-file analysis never returns an error — an
unparseable file falls back to the regex scan (without recording a
Warning-level issue; the batch's Warning branch fires only if per-file
analysis itself errored) — and the transformer loop replaces a failing
file by its original text while still processing every transformable
file. -/
theorem per_file_failures_recovered :
    (∀ (reg : NodeApiRegistry) (f : SrcFile), (analyze_file reg f).isOk = true) ∧
    (∀ (reg : NodeApiRegistry) (f : SrcFile), f.parsed = none →
       analyze_file reg f = .ok (regex_based_analysis reg f.path f.content)) ∧
    (∀ files : List TransformFile,
       (transform_package_files files).transformed_files =
         files.filterMap (fun f =>
           if should_transform_file f.path then
             some (f.path, match f.transformed with
               | .ok r => r.1
               | .error _ => f.content)
           else none)) ∧
    (∀ files : List TransformFile,
       (transform_package_files files).files_processed =
         (files.filter (fun f => should_transform_file f.path)).length) := by
  refine ⟨?_, ?_, ?_, ?_⟩
  · intro reg f
    cases hp : f.parsed <;> simp [analyze_file, hp, Except.isOk, Except.toBool]
  · intro reg f hp
    simp [analyze_file, hp]
  · intro files
    simpa using transform_foldl_files files
      { transformed_files := [], files_processed := 0, all_polyfills := [] }
  · intro files
    simpa using transform_foldl_count files
      { transformed_files := [], files_processed := 0, all_polyfills := [] }

/-- C7 witness: the fallback equation evaluated on the counterexample
file. -/
theorem per_file_failures_recovered_witness :
    analyze_file NodeApiRegistry.new
        { path := "index.js", content := "var x = 1;", parsed := none } =
      .ok (regex_based_analysis NodeApiRegistry.new "index.js" "var x = 1;") :=
  per_file_failures_recovered.2.1 NodeApiRegistry.new
    { path := "index.js", content := "var x = 1;", parsed := none } rfl

/-- C8: for a non-empty file set the compatibility score is exactly
`max (1 - (errors·(1/10) + warnings·(1/20))) 0`; it always lies in
[0, 1]; it is non-increasing as the error or warning count rises; and
an empty file set scores 0. -/
theorem compatibility_score_spec :
    (∀ (issues : List CompatibilityIssue) (files : List FileAnalysis),
       files ≠ [] →
       calculate_compatibility_score issues files =
         max (1 - ((errorCount issues : ℚ) * (1 / 10) +
           (warningCount issues : ℚ) * (1 / 20))) 0) ∧
    (∀ (issues : List CompatibilityIssue) (files : List FileAnalysis),
       0 ≤ calculate_compatibility_score issues files ∧
         calculate_compatibility_score issues files ≤ 1) ∧
    (∀ (i₁ i₂ : List CompatibilityIssue) (files : List FileAnalysis),
       errorCount i₁ ≤ errorCount i₂ → warningCount i₁ ≤ warningCount i₂ →
       calculate_compatibility_score i₂ files ≤
         calculate_compatibility_score i₁ files) ∧
    (∀ issues : List CompatibilityIssue,
       calculate_compatibility_score issues ([] : List FileAnalysis) = 0) := by
  have hpen : ∀ issues : List CompatibilityIssue,
      (0 : ℚ) ≤ (errorCount issues : ℚ) * (1 / 10) +
        (warningCount issues : ℚ) * (1 / 20) := by
    intro issues
    positivity
  refine ⟨?_, ?_, ?_, ?_⟩
  · intro issues files hne
    cases files with
    | nil => exact absurd rfl hne
    | cons a t => simp [calculate_compatibility_score]
  · intro issues files
    cases files with
    | nil => simp [calculate_compatibility_score]
    | cons a t =>
      refine ⟨le_max_right _ _, ?_⟩
      simp only [calculate_compatibility_score, List.isEmpty_cons, if_false,
        Bool.false_eq_true]
      exact max_le (by linarith [hpen issues]) (by norm_num)
  · intro i₁ i₂ files h₁ h₂
    cases files with
    | nil => simp [calculate_compatibility_score]
    | cons a t =>
      simp only [calculate_compatibility_score, List.isEmpty_cons, if_false,
        Bool.false_eq_true]
      refine max_le_max (sub_le_sub_left ?_ 1) le_rfl
      have he : (errorCount i₁ : ℚ) ≤ (errorCount i₂ : ℚ) := Nat.cast_le.mpr h₁
      have hw : (warningCount i₁ : ℚ) ≤ (warningCount i₂ : ℚ) := Nat.cast_le.mpr h₂
      have h10 : (0 : ℚ) ≤ 1 / 10 := by norm_num
      have h20 : (0 : ℚ) ≤ 1 / 20 := by norm_num
      exact add_le_add (mul_le_mul_of_nonneg_right he h10)
        (mul_le_mul_of_nonneg_right hw h20)
  · intro issues
    rfl

/-- C8 witness: the exact formula evaluated on one analyzed file and no
issues. -/
theorem compatibility_score_spec_witness :
    calculate_compatibility_score []
        [{ path := "index.js", syntax_type := .javascript,
           module_type := .unknown, imports := [], exports := [],
           node_api_usage := [], issues := [], estimated_size := 0 }] =
      max (1 - ((errorCount [] : ℚ) * (1 / 10) +
        (warningCount [] : ℚ) * (1 / 20))) 0 :=
  compatibility_score_spec.1 [] _ (by simp)

/-- C10: for a fixed transformed code and exclude list, any two
strategies whose bundling both succeed return the same
`bundledDependencies` list — it is computed from the extracted
specifiers and the bundle classification before the strategy dispatch. -/
theorem bundled_deps_strategy_independent
    (cfg : Config) (rc : String → Bool) (im : String → String → Bool)
    (excl : List String) (code : String) (s₁ s₂ : BundleStrategy)
    (b₁ b₂ : BundledCode)
    (h₁ : bundle cfg rc im s₁ excl code = .ok b₁)
    (h₂ : bundle cfg rc im s₂ excl code = .ok b₂) :
    b₁.bundled_dependencies = b₂.bundled_dependencies := by
  rw [bundle_ok_bundled_deps cfg rc im s₁ excl code b₁ h₁,
    bundle_ok_bundled_deps cfg rc im s₂ excl code b₂ h₂]

/-- C10 witness: Inline and External bundling of an empty module both
succeed and agree on the (empty) dependency list. -/
theorem bundled_deps_strategy_independent_witness :
    ({ code := "\n  // === Main Module ===", bundled_dependencies := [],
       unminified_size := 26 } : BundledCode).bundled_dependencies =
      ({ code := "  // === Main Module ===", bundled_dependencies := [],
         unminified_size := 25 } : BundledCode).bundled_dependencies :=
  bundled_deps_strategy_independent Config.default (fun _ => true)
    (fun _ _ => false) [] "" .inline .external _ _ rfl rfl

end Pakto
